import Mathlib

/-!
Shallow embedding of the task-lifecycle core of a Slack task-tracking app
(latest variant): the task store rows, the broadcast completion flow
(`complete_task`), requester confirmation (`confirm_broadcast_done`),
cancellation (`cancel_task`), manual status change (`status_select`),
content editing (`dbUpdateTaskContent` / `edit_task_modal`), task creation
from the modal (`task_modal`), the derived broadcast state label
(`calcBroadcastStateLabel`), and the thread-card upsert protocol
(`upsertThreadCard` / `dbUpsertThreadCard`).

The database is modelled per task as explicit lists (target rows,
completion rows) plus the task row itself; handlers become pure functions
from state to state together with the user-visible messages and
notifications they emit.  Timestamps (`now()`) are passed in as naturals.
-/

namespace SlackTask

/-- A JavaScript-level optional value as it arrives in a partial-update
object: a field can be absent (`undef`), explicitly `null`, or a value.
The `x ?? null` in the code collapses `undef` and `null` to SQL NULL. -/
inductive JsOpt (α : Type) where
  | undef : JsOpt α
  | null : JsOpt α
  | val : α → JsOpt α
deriving DecidableEq, Repr

/-- Models `patch?.field ?? null`: both an omitted field and an explicit null
become SQL NULL (`none`); a value passes through. -/
def JsOpt.toOption {α : Type} : JsOpt α → Option α
  | .undef => none
  | .null => none
  | .val a => some a

/-- A row of the `tasks` table (the columns the lifecycle core reads and
writes). `status` and `task_type` are the raw strings the code stores. -/
structure Task where
  id : String
  teamId : String
  taskType : String
  status : String
  requesterUserId : String
  assigneeId : Option String
  assigneeDept : Option String
  dueDate : Option String
  description : Option String
  totalCount : Option Nat
  completedCount : Option Nat
  notifiedAt : Option Nat
  completedAt : Option Nat
  cancelledAt : Option Nat
  cancelledByUserId : Option String
deriving DecidableEq, Repr

/-- The per-task slice of the database: the task row, its `task_targets`
rows and its `task_completions` rows (each a list of user ids). -/
structure TaskState where
  task : Task
  targets : List String
  completions : List String
deriving DecidableEq, Repr

/-- JS `x || fallback` on a nullable count: `null` and `0` are falsy. -/
def jsOrNat (o : Option Nat) (fallback : Nat) : Nat :=
  match o with
  | none => fallback
  | some n => if n = 0 then fallback else n

/-- Models `Number(x || 0)` on a nullable count. -/
def jsNat (o : Option Nat) : Nat := o.getD 0

/-- Embeds `dbUpdateStatus`: sets `status`, stamps `completed_at` only when the
new status is `done` (SQL CASE WHEN the status equals done THEN now() ELSE completed_at END). -/
def dbUpdateStatus (t : Task) (status : String) (now : Nat) : Task :=
  { t with
    status := status
    completedAt := if status = "done" then some now else t.completedAt }

/-- Embeds `dbCancelTask`: sets status to cancelled and stamps
`cancelled_at` / `cancelled_by_user_id`, unconditionally. -/
def dbCancelTask (t : Task) (actorUserId : String) (now : Nat) : Task :=
  { t with
    status := "cancelled"
    cancelledAt := some now
    cancelledByUserId := some actorUserId }

/-- Embeds `dbUpsertCompletion`: `INSERT ... ON CONFLICT (task_id, user_id) DO
NOTHING` — the row is added only when not already present. -/
def dbUpsertCompletion (completions : List String) (userId : String) : List String :=
  if userId ∈ completions then completions else completions ++ [userId]

/-- The single-fire SQL guard
`UPDATE tasks SET notified_at=now() WHERE ... AND notified_at IS NULL`:
sets `notified_at` only when it is still NULL. -/
def dbSetNotifiedAtIfNull (t : Task) (now : Nat) : Task :=
  if t.notifiedAt = none then { t with notifiedAt := some now } else t

/-- The partial-update object passed to `dbUpdateTaskContent`; each field
is a JS value that may be absent, null, or set. -/
structure ContentPatch where
  assignee_id : JsOpt String
  assignee_dept : JsOpt String
  due_date : JsOpt String
  description : JsOpt String
deriving DecidableEq, Repr

/-- Embeds `dbUpdateTaskContent`: `assignee_id`, `assignee_dept` and
`description` are written through `COALESCE($n, old)` (a NULL parameter
keeps the stored value), while `due_date = $5` is written directly, with
no COALESCE, so a NULL parameter clears it.  Each parameter is
`patch?.field ?? null`. -/
def dbUpdateTaskContent (t : Task) (patch : ContentPatch) : Task :=
  { t with
    assigneeId := (patch.assignee_id.toOption).orElse fun _ => t.assigneeId
    assigneeDept := (patch.assignee_dept.toOption).orElse fun _ => t.assigneeDept
    dueDate := patch.due_date.toOption
    description := (patch.description.toOption).orElse fun _ => t.description }

/-- Result of an action handler: the new per-task database slice, the
ephemeral message shown to the acting user (if any), and whether the
requester-confirmation DM (`postRequesterConfirmDM`) was sent. -/
structure ActionResult where
  state : TaskState
  ephemeral : Option String
  confirmDMSent : Bool
deriving DecidableEq, Repr

/-- The `complete_task` action handler.  Broadcast branch: reject
non-targets with an ephemeral message; upsert the completion row;
`total = task.total_count || dbCountTargets(...)` (JS `||`, so `0` and
NULL fall back to the live target count); re-count completions; when
`doneCount >= total && total > 0`, re-fetch the task, move it to
`waiting` unless its status is already in {waiting, done, cancelled},
and if `notified_at` was still unset run the conditional
`SET notified_at=now() WHERE notified_at IS NULL` update and send the
requester-confirmation DM.  Personal branch: set status `done`. -/
def complete_task (s : TaskState) (userId : String) (now : Nat) : ActionResult :=
  if s.task.taskType = "broadcast" then
    if userId ∈ s.targets then
      let comps := dbUpsertCompletion s.completions userId
      let total := jsOrNat s.task.totalCount s.targets.length
      let doneCount := comps.length
      if total ≤ doneCount ∧ 0 < total then
        let fresh := s.task
        let t1 :=
          if fresh.status = "waiting" ∨ fresh.status = "done" ∨ fresh.status = "cancelled"
          then fresh
          else dbUpdateStatus fresh "waiting" now
        if fresh.notifiedAt = none then
          { state := ⟨dbSetNotifiedAtIfNull t1 now, s.targets, comps⟩
            ephemeral := none
            confirmDMSent := true }
        else
          { state := ⟨t1, s.targets, comps⟩, ephemeral := none, confirmDMSent := false }
      else
        { state := ⟨s.task, s.targets, comps⟩, ephemeral := none, confirmDMSent := false }
    else
      { state := s
        ephemeral := some "🥺 このタスクの対象者じゃないみたい…！"
        confirmDMSent := false }
  else
    { state := ⟨dbUpdateStatus s.task "done" now, s.targets, s.completions⟩
      ephemeral := none
      confirmDMSent := false }

/-- The `confirm_broadcast_done` action handler.  The acting user id is
accepted but never inspected (any viewer may confirm).  Non-broadcast
tasks return untouched; a task already `done` or `cancelled` returns
untouched with a conflict message; otherwise status is forced to `done`. -/
def confirm_broadcast_done (t : Task) (actorUserId : String) (now : Nat) :
    Task × Option String :=
  if t.taskType ≠ "broadcast" then (t, none)
  else if t.status = "done" ∨ t.status = "cancelled" then
    (t, some "もう完了（または取り下げ）になってるよ！")
  else
    (dbUpdateStatus t "done" now, none)

/-- The `cancel_task` action handler: only the requester may cancel;
anyone else gets an ephemeral message and the task is untouched. -/
def cancel_task (t : Task) (actorUserId : String) (now : Nat) :
    Task × Option String :=
  if t.requesterUserId ≠ actorUserId then
    (t, some "🥺 取り下げできるのは依頼者だけだよ…！")
  else
    (dbCancelTask t actorUserId now, none)

/-- The `status_select` action handler: broadcast tasks refuse manual
status changes; on personal tasks only the requester or the assignee may
change status (`task.requester_user_id !== actor && task.assignee_id !== actor`
rejects); otherwise `dbUpdateStatus` runs with the selected value. -/
def status_select (t : Task) (actorUserId nextStatus : String) (now : Nat) :
    Task × Option String :=
  if t.taskType = "broadcast" then
    (t, some "🥺 複数タスクのステータスは自動で進むよ（全員完了→確認待ち→依頼者の確認完了）")
  else if t.requesterUserId ≠ actorUserId ∧ t.assigneeId ≠ some actorUserId then
    (t, some "🥺 ステータス変更できるのは依頼者か対応者だけだよ…！")
  else
    (dbUpdateStatus t nextStatus now, none)

/-- Embeds `calcBroadcastStateLabel`: the derived user-facing label of a
broadcast task.  Terminal statuses win outright; otherwise
`total = Number(task?.total_count || 0)`, `done = Number(task?.completed_count || 0)`
and the label is confirm-pending when `total > 0 && done >= total`,
in-progress when `done > 0`, else not-started. -/
def calcBroadcastStateLabel (t : Task) : String :=
  if t.status = "cancelled" then "取り下げ"
  else if t.status = "done" then "完了"
  else
    let total := jsNat t.totalCount
    let done := jsNat t.completedCount
    if 0 < total ∧ total ≤ done then "確認待ち"
    else if 0 < done then "対応中"
    else "未着手"

/-- A row of the `thread_cards` table: key `(team_id, channel_id, parent_ts)`
with the Slack timestamp of the currently-posted card message. -/
structure ThreadCardRow where
  teamId : String
  channelId : String
  parentTs : String
  cardTs : String
deriving DecidableEq, Repr

/-- Does the row match the upsert key? -/
def tcMatches (teamId channelId parentTs : String) (r : ThreadCardRow) : Bool :=
  r.teamId == teamId && r.channelId == channelId && r.parentTs == parentTs

/-- Embeds `dbGetThreadCard`: `SELECT ... WHERE team_id=$1 AND channel_id=$2 AND parent_ts=$3 LIMIT 1`. -/
def dbGetThreadCard (cards : List ThreadCardRow) (teamId channelId parentTs : String) :
    Option ThreadCardRow :=
  cards.find? (tcMatches teamId channelId parentTs)

/-- Embeds `dbUpsertThreadCard`: read the row by key; if present, update its
`card_ts` in place; otherwise insert a fresh row. -/
def dbUpsertThreadCard (cards : List ThreadCardRow)
    (teamId channelId parentTs cardTs : String) : List ThreadCardRow :=
  match dbGetThreadCard cards teamId channelId parentTs with
  | some _ =>
      cards.map fun r =>
        if tcMatches teamId channelId parentTs r then { r with cardTs := cardTs } else r
  | none => cards ++ [⟨teamId, channelId, parentTs, cardTs⟩]

/-- The Slack-side effects visible to the thread-card protocol: the
`thread_cards` table, the list of timestamps of messages posted via
`chat.postMessage`, the list of timestamps targeted by `chat.update`,
and a counter from which Slack mints fresh timestamps. -/
structure CardEnv where
  cards : List ThreadCardRow
  posted : List String
  edits : List String
  nextTs : Nat
deriving DecidableEq, Repr

/-- The timestamp Slack assigns to the next posted message. -/
def freshTs (n : Nat) : String := "ts" ++ toString n

/-- Embeds `upsertThreadCard`: look up the ThreadCard row by
`(teamId, channelId, parentTs)`.  If a row with a recorded `card_ts`
exists, edit that message in place (`chat.update`) and return its
timestamp; otherwise post a new card message (`chat.postMessage`),
record the key → timestamp mapping via `dbUpsertThreadCard`, and return
the new timestamp. -/
def upsertThreadCard (env : CardEnv) (teamId channelId parentTs : String) :
    CardEnv × String :=
  match dbGetThreadCard env.cards teamId channelId parentTs with
  | some existing =>
      ({ env with edits := env.edits ++ [existing.cardTs] }, existing.cardTs)
  | none =>
      let cardTs := freshTs env.nextTs
      ({ cards := dbUpsertThreadCard env.cards teamId channelId parentTs cardTs
         posted := env.posted ++ [cardTs]
         edits := env.edits
         nextTs := env.nextTs + 1 }, cardTs)

/-- Run the card-refresh protocol `n` times for the same key. -/
def refreshCardN (env : CardEnv) (teamId channelId parentTs : String) : Nat → CardEnv
  | 0 => env
  | n + 1 => refreshCardN (upsertThreadCard env teamId channelId parentTs).1 teamId channelId parentTs n

/-- The fields of the creation-modal submission that the `task_modal`
view handler reads.  `groupMembers` is the user set returned by the
external `expandTargetsFromGroups` lookup for `selectedGroupIds`;
`selectedStatus` is whatever status block the view state may carry — the
handler ignores it (the extraction is commented out and status is fixed). -/
structure ModalSubmission where
  selectedUsers : List String
  selectedGroupIds : List String
  groupMembers : List String
  selectedStatus : Option String
  due : Option String
  description : String
  requesterUserId : String
  actorUserId : String
deriving DecidableEq, Repr

/-- Models the JS Set accumulation preserving first-insertion order, as the
JS `Set` built from `selectedUsers` then `groupUsers` behaves. -/
def addUnique (l : List String) (x : String) : List String :=
  if x ∈ l then l else l ++ [x]

/-- Embeds the target resolution of `task_modal`: a JS Set filled with
`selectedUsers` then `groupUsers` — the de-duplicated target list. -/
def resolveTargets (sub : ModalSubmission) : List String :=
  (sub.selectedUsers ++ sub.groupMembers).foldl addUnique []

/-- The task row assembled by `task_modal` and handed to `dbCreateTask`
(the columns the claims are about). -/
structure CreatedTask where
  taskType : String
  status : String
  assigneeId : Option String
  totalCount : Option Nat
  completedCount : Option Nat
  notifiedAt : Option Nat
  requesterUserId : String
  dueDate : Option String
  description : String
deriving DecidableEq, Repr

/-- The `task_modal` view-submission handler: when neither an individual
nor a group is selected, `ack` with in-modal errors and create nothing
(`none`); otherwise expand groups, de-duplicate targets, classify
`isPersonal = targetList.length === 1 && selectedGroupIds.length === 0`,
fix `status = "in_progress"` (the selector is commented out), and insert
the task with `assignee_id` set only when personal and
`total_count = targetList.length` only when broadcast. -/
def task_modal_submit (sub : ModalSubmission) : Option CreatedTask :=
  if sub.selectedUsers = [] ∧ sub.selectedGroupIds = [] then none
  else
    let targetList := resolveTargets sub
    let isPersonal := targetList.length = 1 ∧ sub.selectedGroupIds = []
    let taskType := if isPersonal then "personal" else "broadcast"
    some
      { taskType := taskType
        status := "in_progress"
        assigneeId := if isPersonal then targetList.head? else none
        totalCount := if taskType = "broadcast" then some targetList.length else none
        completedCount := some 0
        notifiedAt := none
        requesterUserId := sub.requesterUserId
        dueDate := sub.due
        description := sub.description }

/-- The abstract derived state of a broadcast task, as the specification
words it: terminal status wins; otherwise confirm-pending when the
target count is positive and reached, in-progress when any completion
exists, else open. -/
inductive DerivedState where
  | open_
  | in_progress
  | waiting
  | done
  | cancelled
deriving DecidableEq, Repr

/-- The spec-side derived-state function (for the refinement claim):
terminal label when status is done or cancelled, counts ignored;
otherwise waiting when `totalCount > 0` and `completedCount >= totalCount`;
otherwise in_progress when `completedCount > 0`; otherwise open. -/
def derivedStateSpec (t : Task) : DerivedState :=
  if t.status = "done" then .done
  else if t.status = "cancelled" then .cancelled
  else if 0 < jsNat t.totalCount ∧ jsNat t.totalCount ≤ jsNat t.completedCount then .waiting
  else if 0 < jsNat t.completedCount then .in_progress
  else .open_

/-- The user-facing label of each abstract derived state. -/
def derivedLabel : DerivedState → String
  | .open_ => "未着手"
  | .in_progress => "対応中"
  | .waiting => "確認待ち"
  | .done => "完了"
  | .cancelled => "取り下げ"

end SlackTask

namespace SlackTask

/-- Claim C5: the derived user-facing state of a task equals the terminal
status label when status is done or cancelled (counts ignored);
otherwise the confirm-pending label when `totalCount > 0` and
`completedCount >= totalCount`; otherwise in-progress when
`completedCount > 0`; otherwise open. -/
theorem c5_calc_broadcast_state_label (t : Task) :
    calcBroadcastStateLabel t = derivedLabel (derivedStateSpec t) := by
  unfold calcBroadcastStateLabel derivedStateSpec derivedLabel
  split_ifs <;> simp_all <;> omega

/-- Claim C3: `confirm_broadcast_done` forces the status of a non-terminal
broadcast task to done for every acting user; when the status is already done or
cancelled it changes nothing and reports a conflict message; and it
never changes a non-broadcast task. -/
theorem c3_confirm_broadcast_done_spec (t : Task) (actorUserId : String) (now : Nat) :
    (t.taskType = "broadcast" → t.status ≠ "done" → t.status ≠ "cancelled" →
      (confirm_broadcast_done t actorUserId now).1.status = "done" ∧
      (confirm_broadcast_done t actorUserId now).2 = none) ∧
    (t.taskType = "broadcast" → (t.status = "done" ∨ t.status = "cancelled") →
      (confirm_broadcast_done t actorUserId now).1 = t ∧
      (confirm_broadcast_done t actorUserId now).2.isSome = true) ∧
    (t.taskType ≠ "broadcast" →
      (confirm_broadcast_done t actorUserId now).1 = t ∧
      (confirm_broadcast_done t actorUserId now).2 = none) := by
  unfold confirm_broadcast_done dbUpdateStatus
  refine ⟨fun hb hd hc => ?_, fun hb hterm => ?_, fun hb => ?_⟩
  · simp [hb, hd, hc]
  · rcases hterm with h | h <;> simp [hb, h]
  · simp [hb]

/-- A concrete non-terminal broadcast task used to witness C3. -/
def c3Task : Task :=
  { id := "t1", teamId := "T1", taskType := "broadcast", status := "in_progress"
    requesterUserId := "R", assigneeId := none, assigneeDept := none
    dueDate := none, description := none, totalCount := some 2
    completedCount := some 0, notifiedAt := none, completedAt := none
    cancelledAt := none, cancelledByUserId := none }

/-- Witness for C3 at concrete inputs: a non-requester viewer forces a
non-terminal broadcast task to done; a done broadcast task is left
unchanged with a conflict; a personal task is left unchanged. -/
theorem c3_confirm_broadcast_done_witness :
    (confirm_broadcast_done c3Task "VIEWER" 9).1.status = "done" ∧
    (confirm_broadcast_done { c3Task with status := "done" } "VIEWER" 9).1 =
      { c3Task with status := "done" } ∧
    (confirm_broadcast_done { c3Task with taskType := "personal" } "VIEWER" 9).1 =
      { c3Task with taskType := "personal" } :=
  ⟨((c3_confirm_broadcast_done_spec c3Task "VIEWER" 9).1 rfl (by decide) (by decide)).1,
   ((c3_confirm_broadcast_done_spec { c3Task with status := "done" } "VIEWER" 9).2.1 rfl
      (Or.inl rfl)).1,
   ((c3_confirm_broadcast_done_spec { c3Task with taskType := "personal" } "VIEWER" 9).2.2
      (by decide)).1⟩

/-- Claim C10: every task the creation modal actually creates is stored with
status `in_progress`, whatever status the submitted view state carried
and whatever task type was classified; in particular no task is created
in the `open` state. -/
theorem c10_created_status_fixed (sub : ModalSubmission) (ct : CreatedTask)
    (h : task_modal_submit sub = some ct) :
    ct.status = "in_progress" ∧ ct.status ≠ "open" := by
  unfold task_modal_submit at h
  by_cases hv : sub.selectedUsers = [] ∧ sub.selectedGroupIds = []
  · rw [if_pos hv] at h
    cases h
  · rw [if_neg hv] at h
    simp only [Option.some.injEq] at h
    subst h
    exact ⟨rfl, fun hcon => absurd hcon (by decide : ¬("in_progress" : String) = "open")⟩

/-- A concrete modal submission with two individual assignees, no group,
and a user-selected status of `open`, used to witness C10 and C7. -/
def twoUserSub : ModalSubmission :=
  { selectedUsers := ["U1", "U2"], selectedGroupIds := [], groupMembers := []
    selectedStatus := some "open", due := none, description := "do it"
    requesterUserId := "R", actorUserId := "R" }

/-- Witness for C10: even with `open` selected in the view state, the
stored status of the created broadcast task is `in_progress`. -/
theorem c10_created_status_fixed_witness :
    ∃ ct, task_modal_submit twoUserSub = some ct ∧
      (ct.status = "in_progress" ∧ ct.status ≠ "open") :=
  ⟨_, rfl, c10_created_status_fixed twoUserSub _ rfl⟩

/-- Claim C7: the creation modal rejects a submission exactly when it carries
no individual and no group; a created task is classified personal iff
the de-duplicated resolved target list (individuals then expanded group
members) has length exactly one and no group was selected; every other
accepted combination is classified broadcast with `total_count` equal to
the resolved target-list length. -/
theorem c7_create_classification (sub : ModalSubmission) :
    (task_modal_submit sub = none ↔
      sub.selectedUsers = [] ∧ sub.selectedGroupIds = []) ∧
    (∀ ct, task_modal_submit sub = some ct →
      ((ct.taskType = "personal") ↔
        ((resolveTargets sub).length = 1 ∧ sub.selectedGroupIds = [])) ∧
      (¬((resolveTargets sub).length = 1 ∧ sub.selectedGroupIds = []) →
        ct.taskType = "broadcast" ∧
        ct.totalCount = some (resolveTargets sub).length)) := by
  constructor
  · unfold task_modal_submit
    by_cases h : sub.selectedUsers = [] ∧ sub.selectedGroupIds = []
    · simp [h]
    · simp [h]
  · intro ct hct
    unfold task_modal_submit at hct
    by_cases h : sub.selectedUsers = [] ∧ sub.selectedGroupIds = []
    · rw [if_pos h] at hct
      cases hct
    · rw [if_neg h] at hct
      simp only [Option.some.injEq] at hct
      subst hct
      by_cases hp : (resolveTargets sub).length = 1 ∧ sub.selectedGroupIds = []
      · exact ⟨by simp [hp], fun hcon => absurd hp hcon⟩
      · refine ⟨by simp [hp], fun _ => ⟨by simp [hp], by simp [hp]⟩⟩

/-- Witness for C7 at concrete inputs: the empty submission is rejected;
a two-individual submission resolves to a broadcast task with
`total_count = 2`. -/
theorem c7_create_classification_witness :
    task_modal_submit { twoUserSub with selectedUsers := [], selectedGroupIds := [] } = none ∧
    ∃ ct, task_modal_submit twoUserSub = some ct ∧
      ct.taskType = "broadcast" ∧ ct.totalCount = some 2 := by
  constructor
  · exact (c7_create_classification
      { twoUserSub with selectedUsers := [], selectedGroupIds := [] }).1.mpr ⟨rfl, rfl⟩
  · refine ⟨_, rfl, ?_⟩
    have h := ((c7_create_classification twoUserSub).2 _ rfl).2 (by decide)
    exact ⟨h.1, h.2.trans (by decide)⟩

/-- A concrete personal task with a stored due date, used for the C9
counterexample. -/
def c9Task : Task :=
  { id := "t9", teamId := "T1", taskType := "personal", status := "in_progress"
    requesterUserId := "R", assigneeId := some "X", assigneeDept := none
    dueDate := some "2026-04-25", description := some "old"
    totalCount := none, completedCount := none, notifiedAt := none
    completedAt := none, cancelledAt := none, cancelledByUserId := none }

/-- A patch that updates the description but omits the due-date field
entirely. -/
def c9PatchOmitted : ContentPatch :=
  { assignee_id := .undef, assignee_dept := .undef, due_date := .undef
    description := .val "new" }

/-- Claim C9 counterexample: a patch that omits the due-date field does not
leave the stored due date unchanged — `patch?.due_date ?? null` turns
the omitted field into SQL NULL and the non-COALESCEd column write
clears the stored date. -/
theorem c9_omitted_due_date_counterexample :
    ¬ ((dbUpdateTaskContent c9Task c9PatchOmitted).dueDate = c9Task.dueDate) := by
  decide

/-- Claim C9 (amended): the stored due date always becomes exactly the passed
value — an explicit null persists the clear, and an omitted due date is
treated identically to an explicit null (both clear); assignee and
description follow first-non-null-wins semantics, so a null or omitted
value never clears them and a supplied value replaces them. -/
theorem c9_content_update_semantics (t : Task) (p : ContentPatch) :
    (dbUpdateTaskContent t p).dueDate = p.due_date.toOption ∧
    (p.assignee_id.toOption = none →
      (dbUpdateTaskContent t p).assigneeId = t.assigneeId) ∧
    (∀ v, p.assignee_id = .val v → (dbUpdateTaskContent t p).assigneeId = some v) ∧
    (p.description.toOption = none →
      (dbUpdateTaskContent t p).description = t.description) ∧
    (∀ v, p.description = .val v → (dbUpdateTaskContent t p).description = some v) := by
  refine ⟨rfl, fun ha => ?_, fun v hv => ?_, fun hd => ?_, fun v hv => ?_⟩
  · simp [dbUpdateTaskContent, ha, Option.orElse]
  · simp [dbUpdateTaskContent, hv, JsOpt.toOption, Option.orElse]
  · simp [dbUpdateTaskContent, hd, Option.orElse]
  · simp [dbUpdateTaskContent, hv, JsOpt.toOption, Option.orElse]

/-- Witness for C9 (amended) at concrete inputs: an explicit-null patch
clears the stored due date while leaving the untouched description in
place. -/
theorem c9_content_update_semantics_witness :
    (dbUpdateTaskContent c9Task
      { assignee_id := .undef, assignee_dept := .undef, due_date := .null
        description := .undef }).dueDate = none ∧
    (dbUpdateTaskContent c9Task
      { assignee_id := .undef, assignee_dept := .undef, due_date := .null
        description := .undef }).description = c9Task.description ∧
    (dbUpdateTaskContent c9Task c9PatchOmitted).description = some "new" :=
  ⟨(c9_content_update_semantics c9Task _).1,
   (c9_content_update_semantics c9Task _).2.2.2.1 rfl,
   (c9_content_update_semantics c9Task c9PatchOmitted).2.2.2.2 "new" rfl⟩

/-- Claim C8: authorization before mutation — cancellation succeeds only for
the requester (any task type; an attempt by a non-requester leaves the task
unchanged and shows a message); a status change on a personal task by a
third party (neither requester nor assignee) is rejected with a message
and leaves the task unchanged, while the requester or assignee succeeds;
a broadcast completion by a non-target is rejected with a message and
changes nothing, so completion rows remain a subset of target rows. -/
theorem c8_authorization_matrix (t : Task) (s : TaskState)
    (actorUserId nextStatus u : String) (now : Nat) :
    (t.requesterUserId ≠ actorUserId →
      (cancel_task t actorUserId now).1 = t ∧
      (cancel_task t actorUserId now).2.isSome = true) ∧
    (t.requesterUserId = actorUserId →
      (cancel_task t actorUserId now).1.status = "cancelled") ∧
    (t.taskType = "personal" → t.requesterUserId ≠ actorUserId →
      t.assigneeId ≠ some actorUserId →
      (status_select t actorUserId nextStatus now).1 = t ∧
      (status_select t actorUserId nextStatus now).2.isSome = true) ∧
    (t.taskType = "personal" →
      (t.requesterUserId = actorUserId ∨ t.assigneeId = some actorUserId) →
      (status_select t actorUserId nextStatus now).1.status = nextStatus) ∧
    (s.task.taskType = "broadcast" → u ∉ s.targets →
      (complete_task s u now).state = s ∧
      (complete_task s u now).ephemeral.isSome = true) ∧
    (s.task.taskType = "broadcast" → (∀ x ∈ s.completions, x ∈ s.targets) →
      ∀ x ∈ (complete_task s u now).state.completions,
        x ∈ (complete_task s u now).state.targets) := by
  refine ⟨fun hna => ?_, fun ha => ?_, fun hp hna hnx => ?_, fun hp hauth => ?_,
    fun hb hnt => ?_, fun hb hsub => ?_⟩
  · simp [cancel_task, hna]
  · simp [cancel_task, ha, dbCancelTask]
  · have hbp : t.taskType ≠ "broadcast" := by simp [hp]
    simp [status_select, hbp, hna, hnx]
  · have hbp : t.taskType ≠ "broadcast" := by simp [hp]
    have hcond : ¬(t.requesterUserId ≠ actorUserId ∧ t.assigneeId ≠ some actorUserId) := by
      rcases hauth with h | h <;> simp [h]
    simp [status_select, hbp, hcond, dbUpdateStatus]
  · simp [complete_task, hb, hnt]
  · intro x hx
    unfold complete_task at hx ⊢
    rw [if_pos hb] at hx ⊢
    by_cases ht : u ∈ s.targets
    · rw [if_pos ht] at hx ⊢
      have hcomps : x ∈ dbUpsertCompletion s.completions u := by
        by_cases hthr :
            jsOrNat s.task.totalCount s.targets.length ≤
              (dbUpsertCompletion s.completions u).length ∧
            0 < jsOrNat s.task.totalCount s.targets.length
        · rw [if_pos hthr] at hx
          by_cases hnot : s.task.notifiedAt = none
          · rw [if_pos hnot] at hx
            exact hx
          · rw [if_neg hnot] at hx
            exact hx
        · rw [if_neg hthr] at hx
          exact hx
      have hxt : x ∈ s.targets := by
        unfold dbUpsertCompletion at hcomps
        by_cases hu : u ∈ s.completions
        · rw [if_pos hu] at hcomps
          exact hsub x hcomps
        · rw [if_neg hu] at hcomps
          rcases List.mem_append.mp hcomps with h | h
          · exact hsub x h
          · rw [List.mem_singleton.mp h]
            exact ht
      by_cases hthr :
          jsOrNat s.task.totalCount s.targets.length ≤
            (dbUpsertCompletion s.completions u).length ∧
          0 < jsOrNat s.task.totalCount s.targets.length
      · rw [if_pos hthr]
        by_cases hnot : s.task.notifiedAt = none
        · rw [if_pos hnot]
          exact hxt
        · rw [if_neg hnot]
          exact hxt
      · rw [if_neg hthr]
        exact hxt
    · rw [if_neg ht] at hx ⊢
      exact hsub x hx

/-- Concrete states used to witness C8. -/
def c8State : TaskState :=
  ⟨{ c3Task with id := "t8" }, ["A", "B"], ["A"]⟩

/-- Witness for C8 at concrete inputs: a stranger cannot cancel; the
requester can; a third party cannot change the status of a personal task but
the assignee can; a broadcast completion by a non-target is rejected; with
completions a subset of targets, they remain so after a completion. -/
theorem c8_authorization_matrix_witness :
    (cancel_task { c9Task with id := "t8a" } "STRANGER" 3).1 = { c9Task with id := "t8a" } ∧
    (cancel_task { c9Task with id := "t8a" } "R" 3).1.status = "cancelled" ∧
    (status_select { c9Task with id := "t8a" } "STRANGER" "done" 3).1 = { c9Task with id := "t8a" } ∧
    (status_select { c9Task with id := "t8a" } "X" "done" 3).1.status = "done" ∧
    (complete_task c8State "STRANGER" 3).state = c8State ∧
    (∀ x ∈ (complete_task c8State "B" 3).state.completions,
      x ∈ (complete_task c8State "B" 3).state.targets) :=
  ⟨((c8_authorization_matrix { c9Task with id := "t8a" } c8State "STRANGER" "done" "B" 3).1
      (by decide)).1,
   (c8_authorization_matrix { c9Task with id := "t8a" } c8State "R" "done" "B" 3).2.1 rfl,
   ((c8_authorization_matrix { c9Task with id := "t8a" } c8State "STRANGER" "done" "B" 3).2.2.1
      rfl (by decide) (by decide)).1,
   (c8_authorization_matrix { c9Task with id := "t8a" } c8State "X" "done" "B" 3).2.2.2.1
      rfl (Or.inr rfl),
   ((c8_authorization_matrix { c9Task with id := "t8a" } c8State "STRANGER" "done" "STRANGER" 3).2.2.2.2.1
      rfl (by decide)).1,
   (c8_authorization_matrix { c9Task with id := "t8a" } c8State "STRANGER" "done" "B" 3).2.2.2.2.2
      rfl (by decide)⟩

/-- Claim C1: on a broadcast task, the completion of a target is recorded and the
completion rows are re-counted; when the count reaches the (positive)
total, status moves to `waiting` unless it is already in
{waiting, done, cancelled} (in which case it is untouched), and the
single-fire guard applies: when `notified_at` was still null it is set
to the current time and the requester-confirmation DM is sent, while a
task already notified keeps its `notified_at` and no DM is sent (so the
notification fires at most once per task); a completion that leaves the
count below the total changes nothing on the task row and sends no DM. -/
theorem c1_broadcast_threshold_transition (s : TaskState) (u : String) (now : Nat)
    (hb : s.task.taskType = "broadcast") (ht : u ∈ s.targets) :
    (jsOrNat s.task.totalCount s.targets.length ≤
        (dbUpsertCompletion s.completions u).length ∧
      0 < jsOrNat s.task.totalCount s.targets.length →
      (¬(s.task.status = "waiting" ∨ s.task.status = "done" ∨ s.task.status = "cancelled") →
        (complete_task s u now).state.task.status = "waiting") ∧
      ((s.task.status = "waiting" ∨ s.task.status = "done" ∨ s.task.status = "cancelled") →
        (complete_task s u now).state.task.status = s.task.status) ∧
      (s.task.notifiedAt = none →
        (complete_task s u now).state.task.notifiedAt = some now ∧
        (complete_task s u now).confirmDMSent = true) ∧
      (s.task.notifiedAt ≠ none →
        (complete_task s u now).state.task.notifiedAt = s.task.notifiedAt ∧
        (complete_task s u now).confirmDMSent = false)) ∧
    (¬(jsOrNat s.task.totalCount s.targets.length ≤
        (dbUpsertCompletion s.completions u).length ∧
      0 < jsOrNat s.task.totalCount s.targets.length) →
      (complete_task s u now).state.task = s.task ∧
      (complete_task s u now).confirmDMSent = false) ∧
    (complete_task s u now).state.completions = dbUpsertCompletion s.completions u := by
  unfold complete_task
  rw [if_pos hb, if_pos ht]
  refine ⟨fun hthr => ?_, fun hthr => ?_, ?_⟩
  · rw [if_pos hthr]
    dsimp only
    split_ifs with hterm hnot hnot <;>
      simp_all [dbUpdateStatus, dbSetNotifiedAtIfNull]
  · rw [if_neg hthr]
    exact ⟨rfl, rfl⟩
  · by_cases hthr :
        jsOrNat s.task.totalCount s.targets.length ≤
          (dbUpsertCompletion s.completions u).length ∧
        0 < jsOrNat s.task.totalCount s.targets.length
    · rw [if_pos hthr]
      dsimp only
      split_ifs <;> rfl
    · rw [if_neg hthr]

/-- A concrete broadcast state one completion away from the total, used
to witness C1: targets A and B, A already completed. -/
def c1State : TaskState :=
  ⟨{ c3Task with id := "t1b" }, ["A", "B"], ["A"]⟩

/-- Witness for C1 at concrete inputs: the completion by B reaches 2 of 2, so
the in-progress task moves to waiting, `notified_at` is stamped, and the
requester-confirmation DM fires. -/
theorem c1_broadcast_threshold_transition_witness :
    (complete_task c1State "B" 7).state.task.status = "waiting" ∧
    (complete_task c1State "B" 7).state.task.notifiedAt = some 7 ∧
    (complete_task c1State "B" 7).confirmDMSent = true ∧
    (complete_task c1State "B" 7).state.completions = ["A", "B"] :=
  ⟨((c1_broadcast_threshold_transition c1State "B" 7 rfl (by decide)).1
      (by decide)).1 (by decide),
   (((c1_broadcast_threshold_transition c1State "B" 7 rfl (by decide)).1
      (by decide)).2.2.1 rfl).1,
   (((c1_broadcast_threshold_transition c1State "B" 7 rfl (by decide)).1
      (by decide)).2.2.1 rfl).2,
   ((c1_broadcast_threshold_transition c1State "B" 7 rfl (by decide)).2.2).trans
      (by decide)⟩

/-- Structural facts about one `complete_task` call on a broadcast task
by a target: completions become the upsert, targets / taskType /
totalCount are untouched, no ephemeral error is shown, after a
threshold-reaching call `notified_at` is non-null, and a
below-threshold call leaves the task row untouched. -/
theorem complete_task_state_shape (s : TaskState) (u : String) (now : Nat)
    (hb : s.task.taskType = "broadcast") (ht : u ∈ s.targets) :
    (complete_task s u now).state.completions = dbUpsertCompletion s.completions u ∧
    (complete_task s u now).state.targets = s.targets ∧
    (complete_task s u now).state.task.taskType = s.task.taskType ∧
    (complete_task s u now).state.task.totalCount = s.task.totalCount ∧
    (complete_task s u now).ephemeral = none ∧
    (jsOrNat s.task.totalCount s.targets.length ≤
        (dbUpsertCompletion s.completions u).length ∧
      0 < jsOrNat s.task.totalCount s.targets.length →
      (complete_task s u now).state.task.notifiedAt ≠ none) ∧
    (¬(jsOrNat s.task.totalCount s.targets.length ≤
        (dbUpsertCompletion s.completions u).length ∧
      0 < jsOrNat s.task.totalCount s.targets.length) →
      (complete_task s u now).state.task = s.task) := by
  unfold complete_task
  rw [if_pos hb, if_pos ht]
  by_cases hthr :
      jsOrNat s.task.totalCount s.targets.length ≤
        (dbUpsertCompletion s.completions u).length ∧
      0 < jsOrNat s.task.totalCount s.targets.length
  · rw [if_pos hthr]
    dsimp only
    split_ifs with hterm hnot hnot <;>
      simp_all [dbUpdateStatus, dbSetNotifiedAtIfNull]
  · rw [if_neg hthr]
    dsimp only
    exact ⟨rfl, rfl, rfl, rfl, rfl, fun hc => absurd hc hthr, fun _ => rfl⟩

/-- If every threshold-reaching situation already has `notified_at` set,
a `complete_task` call sends no requester-confirmation DM. -/
theorem complete_task_no_dm_when_notified (s : TaskState) (u : String) (now : Nat)
    (hb : s.task.taskType = "broadcast") (ht : u ∈ s.targets)
    (hkey : jsOrNat s.task.totalCount s.targets.length ≤
        (dbUpsertCompletion s.completions u).length ∧
      0 < jsOrNat s.task.totalCount s.targets.length →
      s.task.notifiedAt ≠ none) :
    (complete_task s u now).confirmDMSent = false := by
  unfold complete_task
  rw [if_pos hb, if_pos ht]
  by_cases hthr :
      jsOrNat s.task.totalCount s.targets.length ≤
        (dbUpsertCompletion s.completions u).length ∧
      0 < jsOrNat s.task.totalCount s.targets.length
  · rw [if_pos hthr]
    dsimp only
    rw [if_neg (hkey hthr)]
  · rw [if_neg hthr]

/-- Claim C6: recording the same (task, user) completion twice is idempotent —
the duplicate is silently ignored (no error message), the completion
rows after the second call equal those after the first (exactly one row
for that user), and the all-done requester DM is not sent by the second
call. -/
theorem c6_duplicate_completion_idempotent (s : TaskState) (u : String) (n1 n2 : Nat)
    (hb : s.task.taskType = "broadcast") (ht : u ∈ s.targets)
    (hn : u ∉ s.completions) :
    (complete_task (complete_task s u n1).state u n2).state.completions =
      (complete_task s u n1).state.completions ∧
    ((complete_task (complete_task s u n1).state u n2).state.completions).count u = 1 ∧
    (complete_task (complete_task s u n1).state u n2).confirmDMSent = false ∧
    (complete_task (complete_task s u n1).state u n2).ephemeral = none := by
  obtain ⟨hc1, ht1, hty1, htc1, _, hnot1, _⟩ := complete_task_state_shape s u n1 hb ht
  have hup : dbUpsertCompletion s.completions u = s.completions ++ [u] := by
    unfold dbUpsertCompletion
    rw [if_neg hn]
  have hcomps1 : (complete_task s u n1).state.completions = s.completions ++ [u] :=
    hc1.trans hup
  have hu1 : u ∈ (complete_task s u n1).state.completions := by
    rw [hcomps1]
    exact List.mem_append_right _ (List.mem_singleton.mpr rfl)
  have hb1 : (complete_task s u n1).state.task.taskType = "broadcast" :=
    hty1.trans hb
  have ht1m : u ∈ (complete_task s u n1).state.targets := ht1 ▸ ht
  obtain ⟨hc2, _, _, _, he2, _, _⟩ :=
    complete_task_state_shape (complete_task s u n1).state u n2 hb1 ht1m
  have hdup : dbUpsertCompletion (complete_task s u n1).state.completions u =
      (complete_task s u n1).state.completions := by
    unfold dbUpsertCompletion
    rw [if_pos hu1]
  have hsame : (complete_task (complete_task s u n1).state u n2).state.completions =
      (complete_task s u n1).state.completions := hc2.trans hdup
  refine ⟨hsame, ?_, ?_, he2⟩
  · rw [hsame, hcomps1, List.count_append]
    simp [List.count_eq_zero_of_not_mem hn]
  · apply complete_task_no_dm_when_notified _ u n2 hb1 ht1m
    intro hthr2
    apply hnot1
    rw [htc1, ht1, hdup, hcomps1] at hthr2
    rw [hup]
    exact hthr2

/-- Witness for C6 at concrete inputs: after B completes twice on a 2-of-2
broadcast task, there is exactly one completion row for B, the second
call is silently ignored, and the requester DM is not re-sent. -/
theorem c6_duplicate_completion_idempotent_witness :
    (complete_task (complete_task c1State "B" 7).state "B" 8).state.completions =
      (complete_task c1State "B" 7).state.completions ∧
    ((complete_task (complete_task c1State "B" 7).state "B" 8).state.completions).count "B" = 1 ∧
    (complete_task (complete_task c1State "B" 7).state "B" 8).confirmDMSent = false :=
  ⟨(c6_duplicate_completion_idempotent c1State "B" 7 8 rfl (by decide) (by decide)).1,
   (c6_duplicate_completion_idempotent c1State "B" 7 8 rfl (by decide) (by decide)).2.1,
   (c6_duplicate_completion_idempotent c1State "B" 7 8 rfl (by decide) (by decide)).2.2.1⟩

/-- When the status of a broadcast task is already in
{waiting, done, cancelled}, a `complete_task` call by a target leaves the
status unchanged (the waiting transition is skipped). -/
theorem complete_task_preserves_terminal_status (s : TaskState) (u : String) (now : Nat)
    (hb : s.task.taskType = "broadcast") (ht : u ∈ s.targets)
    (hterm : s.task.status = "waiting" ∨ s.task.status = "done" ∨
      s.task.status = "cancelled") :
    (complete_task s u now).state.task.status = s.task.status := by
  unfold complete_task
  rw [if_pos hb, if_pos ht]
  by_cases hthr :
      jsOrNat s.task.totalCount s.targets.length ≤
        (dbUpsertCompletion s.completions u).length ∧
      0 < jsOrNat s.task.totalCount s.targets.length
  · rw [if_pos hthr]
    dsimp only
    rw [if_pos hterm]
    split_ifs with hnot
    · simp [dbSetNotifiedAtIfNull]
      split_ifs <;> rfl
    · rfl
  · rw [if_neg hthr]

/-- A concrete cancelled broadcast task with targets U1, U2 and no
completions, used for the C2 counterexample. -/
def c2State : TaskState :=
  ⟨{ c3Task with id := "t2", status := "cancelled" }, ["U1", "U2"], []⟩

/-- Claim C2 counterexample: on a cancelled broadcast task, a previously-valid
completion by a previously-valid target is NOT rejected — no conflict or error message is
shown and the completion rows change (a row for U1 is inserted), so done
and cancelled are not absorbing for `recordCompletion` as the claim
states. -/
theorem c2_terminal_absorbing_counterexample :
    (complete_task c2State "U1" 5).state.completions ≠ c2State.completions ∧
    (complete_task c2State "U1" 5).ephemeral = none := by
  decide

/-- Claim C2 (amended): done and cancelled are not absorbing — the mutating
handlers perform no terminal-status check.  Recording a completion on a
cancelled broadcast task for a still-valid target succeeds silently and
adds the completion row (the count grows by one), although the status
itself stays cancelled because the waiting transition is skipped for
terminal statuses; the status of a done personal task can be changed again by
the requester; a done task can still be cancelled by the requester; and
the content of a done task can still be edited.  (Only the separate
`confirm_broadcast_done` operation rejects terminal states with a
conflict message.) -/
theorem c2_terminal_not_absorbing (s : TaskState) (t : Task)
    (u actorUserId nextStatus : String) (n1 n2 : Nat)
    (hb : s.task.taskType = "broadcast") (hc : s.task.status = "cancelled")
    (ht : u ∈ s.targets) (hn : u ∉ s.completions)
    (hp : t.taskType = "personal") (hd : t.status = "done")
    (ha : t.requesterUserId = actorUserId) :
    (complete_task s u n1).ephemeral = none ∧
    (complete_task s u n1).state.completions.length = s.completions.length + 1 ∧
    (complete_task s u n1).state.task.status = "cancelled" ∧
    (status_select t actorUserId nextStatus n2).1.status = nextStatus ∧
    (status_select t actorUserId nextStatus n2).2 = none ∧
    (cancel_task t actorUserId n2).1.status = "cancelled" ∧
    (∀ d, (dbUpdateTaskContent t
      { assignee_id := .undef, assignee_dept := .undef, due_date := .undef
        description := .val d }).description = some d) := by
  obtain ⟨hc1, _, _, _, he1, _, _⟩ := complete_task_state_shape s u n1 hb ht
  have hbp : t.taskType ≠ "broadcast" := by simp [hp]
  have hcond : ¬(t.requesterUserId ≠ actorUserId ∧ t.assigneeId ≠ some actorUserId) := by
    simp [ha]
  refine ⟨he1, ?_, ?_, ?_, ?_, ?_, fun d => rfl⟩
  · rw [hc1]
    unfold dbUpsertCompletion
    rw [if_neg hn]
    simp
  · exact (complete_task_preserves_terminal_status s u n1 hb ht
      (Or.inr (Or.inr hc))).trans hc
  · simp [status_select, hbp, hcond, dbUpdateStatus]
  · simp [status_select, hbp, hcond]
  · simp [cancel_task, ha, dbCancelTask]

/-- Witness for C2 (amended) at concrete inputs: on the cancelled
broadcast task, the completion by U1 is silently recorded and the status
stays cancelled; a done personal task is moved back to in_progress by
its requester. -/
theorem c2_terminal_not_absorbing_witness :
    (complete_task c2State "U1" 5).ephemeral = none ∧
    (complete_task c2State "U1" 5).state.completions.length = 1 ∧
    (complete_task c2State "U1" 5).state.task.status = "cancelled" ∧
    (status_select { c9Task with status := "done" } "R" "in_progress" 6).1.status =
      "in_progress" :=
  ⟨(c2_terminal_not_absorbing c2State { c9Task with status := "done" } "U1" "R"
      "in_progress" 5 6 rfl rfl (by decide) (by decide) rfl rfl rfl).1,
   (c2_terminal_not_absorbing c2State { c9Task with status := "done" } "U1" "R"
      "in_progress" 5 6 rfl rfl (by decide) (by decide) rfl rfl rfl).2.1,
   (c2_terminal_not_absorbing c2State { c9Task with status := "done" } "U1" "R"
      "in_progress" 5 6 rfl rfl (by decide) (by decide) rfl rfl rfl).2.2.1,
   (c2_terminal_not_absorbing c2State { c9Task with status := "done" } "U1" "R"
      "in_progress" 5 6 rfl rfl (by decide) (by decide) rfl rfl rfl).2.2.2.1⟩

/-- Looking up a key in a table that lacked it after appending a row
with exactly that key finds the appended row. -/
theorem dbGetThreadCard_append_self (cards : List ThreadCardRow)
    (teamId channelId parentTs cardTs : String)
    (h : dbGetThreadCard cards teamId channelId parentTs = none) :
    dbGetThreadCard (cards ++ [⟨teamId, channelId, parentTs, cardTs⟩])
      teamId channelId parentTs =
      some ⟨teamId, channelId, parentTs, cardTs⟩ := by
  unfold dbGetThreadCard at h ⊢
  rw [List.find?_append, h]
  simp [tcMatches]

/-- With a recorded row for the key, one refresh call only edits the
recorded message: the tables and posts are untouched and the timestamp of
the row is appended to the edit log. -/
theorem upsertThreadCard_existing (env : CardEnv) (teamId channelId parentTs : String)
    (c : ThreadCardRow)
    (h : dbGetThreadCard env.cards teamId channelId parentTs = some c) :
    upsertThreadCard env teamId channelId parentTs =
      ({ env with edits := env.edits ++ [c.cardTs] }, c.cardTs) := by
  unfold upsertThreadCard
  rw [h]

/-- With a recorded row for the key, `n` refresh calls post nothing and
change no table row; they only edit the recorded message `n` times. -/
theorem refreshCardN_existing (teamId channelId parentTs : String) (c : ThreadCardRow) :
    ∀ (n : Nat) (env : CardEnv),
      dbGetThreadCard env.cards teamId channelId parentTs = some c →
      refreshCardN env teamId channelId parentTs n =
        { env with edits := env.edits ++ List.replicate n c.cardTs } := by
  intro n
  induction n with
  | zero =>
      intro env h
      simp [refreshCardN]
  | succ m ih =>
      intro env h
      unfold refreshCardN
      rw [upsertThreadCard_existing env teamId channelId parentTs c h]
      rw [ih { env with edits := env.edits ++ [c.cardTs] } h]
      simp [List.replicate_succ]

/-- Claim C4: starting from a state with no ThreadCard row for the key,
running the refresh protocol `n >= 1` times posts exactly one new card
message (on the first call), leaves exactly one ThreadCard row for the
key, keeps that row pointing at the originally posted message, and every
later call is an in-place edit of that same recorded message. -/
theorem c4_thread_card_upsert_idempotent (env : CardEnv)
    (teamId channelId parentTs : String) (n : Nat)
    (h0 : dbGetThreadCard env.cards teamId channelId parentTs = none)
    (hn : 1 ≤ n) :
    (refreshCardN env teamId channelId parentTs n).posted =
      env.posted ++ [freshTs env.nextTs] ∧
    (refreshCardN env teamId channelId parentTs n).edits =
      env.edits ++ List.replicate (n - 1) (freshTs env.nextTs) ∧
    ((refreshCardN env teamId channelId parentTs n).cards.filter
      (tcMatches teamId channelId parentTs)).length = 1 ∧
    dbGetThreadCard (refreshCardN env teamId channelId parentTs n).cards
      teamId channelId parentTs =
      some ⟨teamId, channelId, parentTs, freshTs env.nextTs⟩ := by
  obtain ⟨m, rfl⟩ : ∃ m, n = m + 1 := ⟨n - 1, by omega⟩
  have hfirst : upsertThreadCard env teamId channelId parentTs =
      ({ cards := env.cards ++ [⟨teamId, channelId, parentTs, freshTs env.nextTs⟩]
         posted := env.posted ++ [freshTs env.nextTs]
         edits := env.edits
         nextTs := env.nextTs + 1 }, freshTs env.nextTs) := by
    unfold upsertThreadCard dbUpsertThreadCard
    rw [h0]
  have hrow : dbGetThreadCard
      (env.cards ++ [⟨teamId, channelId, parentTs, freshTs env.nextTs⟩])
      teamId channelId parentTs =
      some ⟨teamId, channelId, parentTs, freshTs env.nextTs⟩ :=
    dbGetThreadCard_append_self env.cards teamId channelId parentTs (freshTs env.nextTs) h0
  have hsteps := refreshCardN_existing teamId channelId parentTs
    ⟨teamId, channelId, parentTs, freshTs env.nextTs⟩ m
    { cards := env.cards ++ [⟨teamId, channelId, parentTs, freshTs env.nextTs⟩]
      posted := env.posted ++ [freshTs env.nextTs]
      edits := env.edits
      nextTs := env.nextTs + 1 } hrow
  have hrun : refreshCardN env teamId channelId parentTs (m + 1) =
      { cards := env.cards ++ [⟨teamId, channelId, parentTs, freshTs env.nextTs⟩]
        posted := env.posted ++ [freshTs env.nextTs]
        edits := env.edits ++ List.replicate m (freshTs env.nextTs)
        nextTs := env.nextTs + 1 } := by
    show refreshCardN (upsertThreadCard env teamId channelId parentTs).1
      teamId channelId parentTs m = _
    rw [hfirst]
    exact hsteps
  have hnone : ∀ r ∈ env.cards, ¬ tcMatches teamId channelId parentTs r = true :=
    fun r hr => by simpa using List.find?_eq_none.mp h0 r hr
  refine ⟨by rw [hrun], by rw [hrun]; simp, ?_, by rw [hrun]; exact hrow⟩
  rw [hrun]
  have hfilter : env.cards.filter (tcMatches teamId channelId parentTs) = [] := by
    rw [List.filter_eq_nil_iff]
    intro a ha
    simpa using hnone a ha
  rw [List.filter_append, hfilter]
  simp [tcMatches]

/-- Witness for C4 at concrete inputs: three refreshes from an empty
state post one card (`ts0`), edit it twice, and leave exactly one
recorded row for the key. -/
theorem c4_thread_card_upsert_idempotent_witness :
    (refreshCardN ⟨[], [], [], 0⟩ "T1" "C1" "100.5" 3).posted = ["ts0"] ∧
    (refreshCardN ⟨[], [], [], 0⟩ "T1" "C1" "100.5" 3).edits = ["ts0", "ts0"] ∧
    ((refreshCardN ⟨[], [], [], 0⟩ "T1" "C1" "100.5" 3).cards.filter
      (tcMatches "T1" "C1" "100.5")).length = 1 :=
  ⟨((c4_thread_card_upsert_idempotent ⟨[], [], [], 0⟩ "T1" "C1" "100.5" 3 rfl
      (by decide)).1).trans (by decide),
   ((c4_thread_card_upsert_idempotent ⟨[], [], [], 0⟩ "T1" "C1" "100.5" 3 rfl
      (by decide)).2.1).trans (by decide),
   (c4_thread_card_upsert_idempotent ⟨[], [], [], 0⟩ "T1" "C1" "100.5" 3 rfl
      (by decide)).2.2.1⟩

end SlackTask
